import Mathlib

/-!
Verification development for the personal-llm-chat-site repository.

The JavaScript sources (assets/context.js, assets/chat.js, assets/site-config.js)
are shallowly embedded here.  JS strings are modelled as lists of characters
(type Str below); every string operation used by the code (toLowerCase, trim,
split, startsWith, includes, replace, slice with negative indices, template
interpolation of undefined) is given a faithful executable definition.
Randomness (Math.random draws) is modelled as explicitly passed data: a list of
natural-number draws for index selection and pre-drawn Booleans for probability
checks, so that every function is a pure function of its inputs and its random
draws.
-/

/-- JS strings are modelled as lists of characters. -/
abbrev Str := List Char

/-- Conversion from Lean string literals to the model type. -/
def str (s : String) : Str := s.data

/-- JS String.prototype.toLowerCase (ASCII-faithful). -/
def jsToLower (s : Str) : Str := s.map Char.toLower

/-- Remove leading whitespace. -/
def jsTrimLeft (s : Str) : Str := s.dropWhile Char.isWhitespace

/-- Remove trailing whitespace. -/
def jsTrimRight (s : Str) : Str := ((s.reverse).dropWhile Char.isWhitespace).reverse

/-- JS String.prototype.trim. -/
def jsTrim (s : Str) : Str := jsTrimRight (jsTrimLeft s)

/-- JS String.prototype.startsWith. -/
def jsStartsWith (s pat : Str) : Bool := pat.isPrefixOf s

/-- JS String.prototype.includes: substring containment test. -/
def jsIncludes : Str → Str → Bool
  | s, pat =>
    if pat.isPrefixOf s then true
    else
      match s with
      | [] => false
      | _ :: rest => jsIncludes rest pat

/-- Prepend a character to the first segment of a split result. -/
def consHead (c : Char) : List Str → List Str
  | [] => [[c]]
  | s :: ss => (c :: s) :: ss

/-- Collapse maximal runs of separator characters to a single separator.
Composed with splitEach below this reproduces JS String.prototype.split on a
regex of the form [CLASS]+ (split at maximal runs, keeping boundary empties). -/
def collapseRuns (p : Char → Bool) : Str → Str
  | [] => []
  | [c] => [c]
  | a :: b :: rest =>
    if p a && p b then collapseRuns p (b :: rest)
    else a :: collapseRuns p (b :: rest)

/-- Split at every character satisfying the predicate (keeping empty segments),
matching JS split on a single-character class. -/
def splitEach (p : Char → Bool) : Str → List Str
  | [] => [[]]
  | c :: rest => if p c then [] :: splitEach p rest else consHead c (splitEach p rest)

/-- JS String.prototype.split on a regex [CLASS]+ : split at maximal runs. -/
def jsSplitRuns (p : Char → Bool) (s : Str) : List Str :=
  splitEach p (collapseRuns p s)

/-- JS String.prototype.split on the literal separator two-newlines, exactly as
manuscriptData.split of a blank line is used in context.js (leftmost,
non-overlapping occurrences). -/
def splitParas : Str → List Str
  | [] => [[]]
  | [c] => [[c]]
  | c :: c2 :: rest =>
    if c = '\n' && c2 = '\n' then [] :: splitParas rest
    else consHead c (splitParas (c2 :: rest))

/-- JS String.prototype.replace with a string pattern: replaces only the first
occurrence (or returns the string unchanged when the pattern does not occur). -/
def jsReplaceFirst (pat repl : Str) : Str → Str
  | [] => if pat.isEmpty then repl else []
  | c :: rest =>
    if pat.isPrefixOf (c :: rest) then repl ++ (c :: rest).drop pat.length
    else c :: jsReplaceFirst pat repl rest

/-- JS Array.prototype.slice(-n).  Note the JS quirk: slice(-0) is slice(0),
the whole array, not the empty array. -/
def jsSliceNeg (l : List α) (n : Nat) : List α :=
  if n = 0 then l else l.drop (l.length - n)

/-- JS Array.prototype.slice(0, -n).  For n = 0 this is slice(0, 0), i.e. empty. -/
def jsSliceZeroNeg (l : List α) (n : Nat) : List α :=
  if n = 0 then [] else l.take (l.length - n)

/-- JS template-literal interpolation of a possibly-undefined value: undefined
is rendered as the literal text "undefined". -/
def jsTemplate : Option Str → Str
  | none => str "undefined"
  | some s => s

/-! ## Selection options (context.js)

A call such as selectRandomHighlights(data, options) branches on
options.seed !== undefined and options.randomize === false. -/

/-- The options bag taken by the selection utilities of context.js. -/
structure SelOptions where
  seed : Option Nat
  randomize : Option Bool
deriving DecidableEq

/-- The deterministic-mode test of context.js:
options.seed !== undefined or options.randomize === false. -/
def SelOptions.deterministic (o : SelOptions) : Bool :=
  o.seed.isSome || o.randomize == some false

/-! ## Highlights data model and selectRandomHighlights (context.js 116-163) -/

/-- One raw highlight entry of the highlights JSON: an object with a text field. -/
structure BookHighlight where
  text : Str
deriving DecidableEq

/-- One book record of the highlights JSON; the highlights field may be absent. -/
structure HBook where
  title : Str
  author : Str
  highlights : Option (List BookHighlight)
deriving DecidableEq

/-- The highlights JSON root; the books field may be absent. -/
structure HighlightsData where
  books : Option (List HBook)
deriving DecidableEq

/-- A flattened highlight as pushed onto allHighlights in selectRandomHighlights. -/
structure Highlight where
  text : Str
  bookTitle : Str
  author : Str
deriving DecidableEq

/-- The allHighlights accumulation loop of selectRandomHighlights: for every
book with a highlights field, one flattened entry per highlight, in order. -/
def flattenHighlights (books : List HBook) : List Highlight :=
  books.flatMap fun b =>
    match b.highlights with
    | none => []
    | some hs => hs.map fun h => ⟨h.text, b.title, b.author⟩

/-- The random-path while loop of selectRandomHighlights, with the Math.random
index draws passed explicitly: keeps drawing until 3 distinct indices are
selected (or as many as there are highlights), here until draws run out.
Each element of allHighlights is a freshly allocated object, so the JS
reference-equality deduplication is exactly deduplication by index. -/
def randomPickIdxs (len : Nat) : List Nat → List Nat → List Nat
  | [], sel => sel
  | d :: ds, sel =>
    if sel.length < 3 && sel.length < len then
      let idx := d % len
      if sel.contains idx then randomPickIdxs len ds sel
      else randomPickIdxs len ds (sel ++ [idx])
    else sel

/-- Default value used for in-range list indexing (never surfaces: all indices
are taken modulo the list length, which is positive at every use site). -/
def dfltHighlight : Highlight := ⟨[], [], []⟩

/-- context.js selectRandomHighlights.  The seeded branch selects
count = min(3, n) indices by the fixed stride (seed + i*17) mod n, skipping
duplicates via the reference-equality find (deduplication by index); the
random branch consumes explicit draws. -/
def selectRandomHighlights (data : Option HighlightsData) (opts : SelOptions)
    (rng : List Nat) : Option (List Highlight) :=
  match data with
  | none => none
  | some d =>
    match d.books with
    | none => none
    | some books =>
      let allHighlights := flattenHighlights books
      if allHighlights.length < 1 then none
      else if opts.deterministic then
        let seed := opts.seed.getD 0
        let count := min 3 allHighlights.length
        let idxs := (List.range count).foldl (fun sel i =>
          let index := (seed + i * 17) % allHighlights.length
          if sel.contains index then sel else sel ++ [index]) []
        some (idxs.map fun i => (allHighlights.get? i).getD dfltHighlight)
      else
        some ((randomPickIdxs allHighlights.length rng []).map
          fun i => (allHighlights.get? i).getD dfltHighlight)

/-! ## Manuscript chunk selection (context.js 165-202) -/

/-- The regex test of a bare page number line: ^[0-9\s]+$ . -/
def isDigitsSpaces (p : Str) : Bool :=
  !p.isEmpty && p.all (fun c => c.isDigit || c.isWhitespace)

/-- The header/boilerplate exclusions of the paragraph filter of
selectRandomManuscriptChunk (everything except the length threshold). -/
def headerFiltersPass (p : Str) : Bool :=
  !jsStartsWith p (str "Chapter ") &&
  !jsStartsWith p (str "Copyright") &&
  !jsStartsWith p (str "ISBN") &&
  !isDigitsSpaces p &&
  !jsStartsWith p (str "Robo-Excerpt") &&
  !jsIncludes p (str "[ ||| ]")

/-- The paragraph filter of selectRandomManuscriptChunk: more than 100
characters and none of the header/boilerplate exclusions. -/
def passesFilter (p : Str) : Bool :=
  decide (100 < p.length) && headerFiltersPass p

/-- The trimmed blank-line-delimited paragraphs of the manuscript, before
filtering. -/
def rawParagraphs (txt : Str) : List Str :=
  (splitParas txt).map jsTrim

/-- The filtered paragraph pool selection draws from. -/
def manuscriptParagraphs (txt : Str) : List Str :=
  (rawParagraphs txt).filter passesFilter

/-- The sentence fragments of a chunk: JS chunk.split(/[.!?]+/). -/
def sentenceFragments (chunk : Str) : List Str :=
  jsSplitRuns (fun c => c = '.' || c = '!' || c = '?') chunk

/-- The JS sentence-count clamp min(3, max(1, Math.floor(n * 0.4))).
Math.floor(n * 0.4) under binary floating point agrees with the exact
floor of 2n/5 at every point where the surrounding clamp can observe it
(cases n = 0..7 checked individually; for n >= 8 both sides are clamped to 3),
so the clamp is modelled with exact natural arithmetic. -/
def numSentencesKept (n : Nat) : Nat :=
  min 3 (max 1 (2 * n / 5))

/-- The oversize-truncation step of selectRandomManuscriptChunk plus the final
trim: chunks over 300 characters are cut to the first
min(3, max(1, floor(0.4 * #fragments))) sentence fragments, re-joined with
periods and given a trailing period. -/
def truncateChunk (chunk : Str) : Str :=
  if decide (300 < chunk.length) then
    let sentences := sentenceFragments chunk
    let n := numSentencesKept sentences.length
    jsTrim (List.intercalate (str ".") (sentences.take n) ++ str ".")
  else jsTrim chunk

/-- The selected index of selectRandomManuscriptChunk: seed mod n in the
deterministic branch, a Math.random draw in the random branch. -/
def chunkIndex (opts : SelOptions) (rng : List Nat) (len : Nat) : Nat :=
  if opts.deterministic then (opts.seed.getD 0) % len
  else (rng.headD 0) % len

/-- The paragraph selectRandomManuscriptChunk picks, before truncation
(none when the manuscript is absent/empty or no paragraph survives the
filter). -/
def chosenParagraph (data : Option Str) (opts : SelOptions) (rng : List Nat) :
    Option Str :=
  match data with
  | none => none
  | some txt =>
    if txt.isEmpty then none
    else
      let paragraphs := manuscriptParagraphs txt
      if paragraphs.length = 0 then none
      else some ((paragraphs.get? (chunkIndex opts rng paragraphs.length)).getD [])

/-- context.js selectRandomManuscriptChunk: pick a filtered paragraph (seeded
or random), truncate when oversized, trim. -/
def selectRandomManuscriptChunk (data : Option Str) (opts : SelOptions)
    (rng : List Nat) : Option Str :=
  (chosenParagraph data opts rng).map truncateChunk

/-! ## Promos and quips (context.js 27-40, 204-218) -/

/-- The configured book record (the fields generateBookPromos reads). -/
structure BookCfg where
  title : Str
  url : Str
deriving DecidableEq

/-- context.js generateBookPromos: empty when the book is absent or book promos
are disabled; otherwise the sample promos with the first occurrence of each
placeholder replaced (JS String.replace replaces only the first occurrence). -/
def generateBookPromos (book : Option BookCfg) (useBookPromos : Bool)
    (samplePromos : List Str) : List Str :=
  match book with
  | none => []
  | some b =>
    if !useBookPromos then []
    else samplePromos.map fun promo =>
      jsReplaceFirst (str "\x7bBOOK_URL\x7d") b.url
        (jsReplaceFirst (str "\x7bBOOK_TITLE\x7d") b.title promo)

/-- context.js FUNNY_QUIPS: the sample quips when enabled, else empty. -/
def funnyQuipsOf (useFunnyQuips : Bool) (sampleQuips : List Str) : List Str :=
  if useFunnyQuips then sampleQuips else []

/-- context.js selectRandomPromo over the module-level BOOK_PROMOS list.
An out-of-range JS array index yields undefined, modelled as none; with an
empty list both branches index out of range (seed % 0 is NaN in JS and
Math.floor(Math.random() * 0) is 0, both giving undefined). -/
def selectRandomPromo (promos : List Str) (opts : SelOptions) (rng : List Nat) :
    Option Str :=
  if opts.deterministic then promos.get? ((opts.seed.getD 0) % promos.length)
  else promos.get? ((rng.headD 0) % promos.length)

/-- context.js selectRandomQuip over the module-level FUNNY_QUIPS list. -/
def selectRandomQuip (quips : List Str) (opts : SelOptions) (rng : List Nat) :
    Option Str :=
  if opts.deterministic then quips.get? ((opts.seed.getD 0) % quips.length)
  else quips.get? ((rng.headD 0) % quips.length)

/-! ## Content loaders (context.js DataLoader, 50-112)

Each loader wraps its whole body, including its own "not ok" throw, in a
try/catch whose catch logs a warning and returns null.  The fetch outcome is
modelled explicitly: a network failure (fetch rejecting), or a response with
an ok flag, a statusText and a body whose parse may itself fail. -/

/-- Outcome of the awaited fetch (and body read) inside a loader. -/
inductive FetchSim (α : Type) where
  | netFail (msg : Str)
  | resp (ok : Bool) (statusText : Str) (body : Except Str α)

/-- The try-block of a loader body: throw on network failure, on a not-ok
response when graceful degradation is off (returning null when it is on), and
on a body-parse failure; otherwise produce the data. -/
def loadTryBlock (errPre : Str) (graceful : Bool) (f : FetchSim α) :
    Except Str (Option α) :=
  match f with
  | .netFail m => .error m
  | .resp ok statusText body =>
    if !ok then
      if graceful then .ok none
      else .error (errPre ++ statusText)
    else
      match body with
      | .error m => .error m
      | .ok v => .ok (some v)

/-- A whole loader call: cached data short-circuits, an unset path yields null,
and the try-block runs under the catch-all that turns any thrown error into a
logged warning plus a null result.  The Except codomain records what the
caller can observe: .error would be a rejected promise, .ok a resolved one. -/
def loadContent (errPre : Str) (cached : Option α) (path : Option Str)
    (graceful : Bool) (f : FetchSim α) : Except Str (Option α) :=
  match cached with
  | some d => .ok (some d)
  | none =>
    match path with
    | none => .ok none
    | some _ =>
      match loadTryBlock errPre graceful f with
      | .error _ => .ok none
      | .ok v => .ok v

/-- DataLoader.loadResumeData (payload type left abstract: the JSON record). -/
def loadResumeData (cached : Option α) (path : Option Str) (graceful : Bool)
    (f : FetchSim α) : Except Str (Option α) :=
  loadContent (str "Failed to fetch resume: ") cached path graceful f

/-- DataLoader.loadHighlightsData. -/
def loadHighlightsData (cached : Option HighlightsData) (path : Option Str)
    (graceful : Bool) (f : FetchSim HighlightsData) :
    Except Str (Option HighlightsData) :=
  loadContent (str "Failed to fetch highlights: ") cached path graceful f

/-- DataLoader.loadManuscriptData. -/
def loadManuscriptData (cached : Option Str) (path : Option Str)
    (graceful : Bool) (f : FetchSim Str) : Except Str (Option Str) :=
  loadContent (str "Failed to fetch manuscript: ") cached path graceful f

/-! ## Conversation history pruning (chat.js ChatEngine._pruneHistory, 382-401)

History turns are the [role, content] pairs pushed by ChatEngine.addMessage.
The history limit is the per-turn dynamic HISTORY_LIMIT (drawn from the
configured range 5..10, defaulting to 8 when no dynamic parameters exist). -/

/-- A conversation turn: the [role, text] pair of ChatEngine.history. -/
abbrev Turn := Str × Str

/-- The keyword extraction of _pruneHistory:
currentInput.toLowerCase().split on whitespace runs, keeping words of length
greater than 3. -/
def extractKeywords (currentInput : Str) : List Str :=
  (jsSplitRuns Char.isWhitespace (jsToLower currentInput)).filter
    fun w => decide (3 < w.length)

/-- The relevance test applied to an older turn: its lowercased text contains
some keyword as a substring. -/
def turnMatches (keywords : List Str) (turn : Turn) : Bool :=
  keywords.any fun keyword => jsIncludes (jsToLower turn.2) keyword

/-- chat.js ChatEngine._pruneHistory: when the history fits inside the limit,
slice(-limit); otherwise the recent slice(-limit) window preceded by at most 2
keyword-relevant turns drawn from the older turns slice(0, -limit). -/
def pruneHistory (history : List Turn) (historyLimit : Nat)
    (currentInput : Str) : List Turn :=
  if history.length ≤ historyLimit then jsSliceNeg history historyLimit
  else
    let recentHistory := jsSliceNeg history historyLimit
    let keywords := extractKeywords currentInput
    let relevantOlder :=
      jsSliceNeg ((jsSliceZeroNeg history historyLimit).filter
        (turnMatches keywords)) 2
    relevantOlder ++ recentHistory

/-! ## Response finalization (chat.js ChatEngine.finalizeResponse, 406-464) -/

/-- The fixed book-promo trigger list of finalizeResponse. -/
def bookTriggers : List Str :=
  [str "evolution", str "ai", str "artificial intelligence",
   str "machine learning", str "biology", str "career", str "journey",
   str "background", str "scientist", str "book", str "write", str "author",
   str "creative", str "creativity", str "robot", str "code",
   str "programming"]

/-- The trigger check: some trigger occurs in the lowercased user text or the
lowercased response. -/
def hasBookTrigger (userText response : Str) : Bool :=
  bookTriggers.any fun trigger =>
    jsIncludes (jsToLower userText) trigger ||
    jsIncludes (jsToLower response) trigger

/-- The random draws consumed by one finalizeResponse call: the outcomes of
the two Math.random threshold tests (against bookPromoChance = 0.2 and 0.15)
and the index draws the promo/quip selectors would consume. -/
structure EmbellishRand where
  promoRoll : Bool
  quipRoll : Bool
  promoDraws : List Nat
  quipDraws : List Nat
deriving DecidableEq

/-- chat.js ChatEngine.finalizeResponse: return short/apologetic replies
unchanged; otherwise append a promo on a trigger hit or a promo-chance roll,
else possibly a quip on the quip roll; at most one addition.  The appended
selector results go through template interpolation, so an undefined selector
result appends the literal text "undefined". -/
def finalizeResponse (promos quips : List Str) (response userText : Str)
    (r : EmbellishRand) : Str :=
  if response.isEmpty || decide (response.length < 30) ||
      jsIncludes response (str "apologize") ||
      jsIncludes response (str "not sure") then
    response
  else if hasBookTrigger userText response || r.promoRoll then
    response ++ str "\n\n" ++
      jsTemplate (selectRandomPromo promos ⟨none, none⟩ r.promoDraws)
  else if r.quipRoll then
    response ++ str "\n\n*" ++
      jsTemplate (selectRandomQuip quips ⟨none, none⟩ r.quipDraws) ++ str "*"
  else response

/-! ## Submit handling (chat.js AIChat._handleSubmit, 694-738)

The handler is modelled as a pure transition on the visible state (engine
history, rendered messages, model-loaded flag) that also emits the list of
effects it performs, so that which collaborators it invokes is part of the
result.  Generation itself (dispatched by the non-greeting path) is modelled
separately below. -/

/-- Visible state touched by _handleSubmit. -/
structure SubmitState where
  history : List Turn
  rendered : List Turn
  modelLoaded : Bool
deriving DecidableEq

/-- The effects _handleSubmit can perform, in order. -/
inductive SubmitAction where
  | addedTurn (role text : Str)
  | renderedMsg (role text : Str)
  | statusSet (s : Str)
  | controlsSet (enabled : Bool)
  | calledGenerate (input : Str)
deriving DecidableEq

/-- Does an effect dispatch generation (prompt assembly, inference and
embellishment all happen inside _generateResponse)? -/
def isGenerateCall : SubmitAction → Bool
  | .calledGenerate _ => true
  | _ => false

/-- The greeting list of _handleSubmit. -/
def greetings : List Str :=
  [str "hi", str "hello", str "hey", str "yo", str "heeey guy", str "sup"]

/-- An apostrophe character (code point 39). -/
def apos : Str := [Char.ofNat 39]

/-- First canned greeting response (templated with the configured name). -/
def canned0 (name : Str) : Str :=
  str "Hello! I" ++ apos ++ str "m a simple bot on " ++ name ++ apos ++
  str "s site. You can ask about work, experience, or writing. What" ++
  apos ++ str "s on your mind?"

/-- Second canned greeting response. -/
def canned1 (name : Str) : Str :=
  str "Hey there! I" ++ apos ++ str "m here to answer questions about " ++
  name ++ str ". Fire away!"

/-- Third canned greeting response. -/
def canned2 (name : Str) : Str :=
  str "Hi! Ask me something about " ++ name ++ apos ++
  str "s background or projects."

/-- The cannedResponses array of the greeting branch. -/
def cannedResponses (name : Str) : List Str :=
  [canned0 name, canned1 name, canned2 name]

/-- The placeholder content rendered while generation runs. -/
def thinkingDots : Str := str "<span class=\"thinking-dots\"></span>"

/-- chat.js AIChat._handleSubmit, up to dispatching _generateResponse.
The input arrives already trimmed by UIController.getMessageInput; empty input
returns immediately.  A greeting (lowercased, trimmed input member of the
greeting list) appends the user turn and a randomly chosen canned response to
the engine history and the rendered messages and returns without dispatching
generation.  Otherwise the user turn is appended and either a load-a-model
notice is rendered (no model) or generation is dispatched. -/
def handleSubmit (name : Str) (st : SubmitState) (rawInput : Str) (rng : Nat) :
    SubmitState × List SubmitAction :=
  let userInput := jsTrim rawInput
  if userInput.isEmpty then (st, [])
  else
    let lowerInput := jsTrim (jsToLower userInput)
    if greetings.contains lowerInput then
      let response :=
        (cannedResponses name).getD (rng % (cannedResponses name).length) []
      ({ st with
          history := st.history ++
            [(str "user", userInput), (str "assistant", response)],
          rendered := st.rendered ++
            [(str "user", userInput), (str "assistant", response)] },
       [.addedTurn (str "user") userInput, .renderedMsg (str "user") userInput,
        .addedTurn (str "assistant") response,
        .renderedMsg (str "assistant") response])
    else
      let st1 := { st with
        history := st.history ++ [(str "user", userInput)],
        rendered := st.rendered ++ [(str "user", userInput)] }
      if !st.modelLoaded then
        ({ st1 with rendered := st1.rendered ++
            [(str "assistant", str "Load a model first.")] },
         [.addedTurn (str "user") userInput,
          .renderedMsg (str "user") userInput,
          .renderedMsg (str "assistant") (str "Load a model first.")])
      else
        ({ st1 with rendered := st1.rendered ++
            [(str "assistant", thinkingDots)] },
         [.addedTurn (str "user") userInput,
          .renderedMsg (str "user") userInput,
          .controlsSet false, .statusSet (str "Thinking…"),
          .renderedMsg (str "assistant") thinkingDots,
          .calledGenerate userInput])

/-! ## Generation streaming and completion (chat.js AIChat._generateResponse,
740-810)

A generation request captures genSeq = ++engine._genSeq at its start; a newer
request (or ChatEngine.cancelGeneration) increments the counter further, so
the captured value no longer equals the engine counter.  Both the streaming
callback and the final-result handler first compare the engine counter with
the captured value and return without touching anything when they differ. -/

/-- The visible state a generation can change: the engine history, the
rendered message contents (indexed by element) and the status line. -/
structure ChatVisState where
  history : List Turn
  rendered : List Str
  status : Str
deriving DecidableEq

/-- One streaming chunk, as discriminated by the onUpdate callback. -/
inductive GenChunk where
  | arrGen (text : Str)
  | objGen (text : Str)
  | tokenText (text : Str)
  | strChunk (text : Str)
  | other
deriving DecidableEq

/-- The latestText accumulation of onUpdate: generated_text chunks replace it,
token/string chunks append to it, anything else leaves it. -/
def applyChunk (chunk : GenChunk) (latestText : Str) : Str :=
  match chunk with
  | .arrGen t => t
  | .objGen t => t
  | .tokenText t => latestText ++ t
  | .strChunk t => latestText ++ t
  | .other => latestText

/-- The display cleanup regex replace of a leading whitespace-dots-whitespace
run (replace of the anchored pattern by the empty string; no occurrence leaves
the string unchanged). -/
def stripLeadingDots (s : Str) : Str :=
  let t := jsTrimLeft s
  if jsStartsWith t (str "...") then jsTrimLeft (t.drop 3) else s

/-- The display text derived from latestText: strip the echoed prompt when the
output starts with it, strip a leading dots run, trim. -/
def displayOf (formatted latest : Str) : Str :=
  let d := if !formatted.isEmpty && jsStartsWith latest formatted then
    latest.drop formatted.length else latest
  jsTrim (stripLeadingDots d)

/-- One invocation of the onUpdate streaming callback of _generateResponse:
suppressed entirely (no latestText update, no visible change) when the engine
sequence number differs from the captured one; otherwise accumulate the chunk
and rewrite the response element with the cleaned display text (or an ellipsis
placeholder when empty). -/
def onUpdate (curSeq reqSeq : Nat) (chunk : GenChunk) (formatted : Str)
    (elIdx : Nat) (acc : Str × ChatVisState) : Str × ChatVisState :=
  if curSeq ≠ reqSeq then acc
  else
    let latest := applyChunk chunk acc.1
    let display := displayOf formatted latest
    (latest,
     { acc.2 with rendered :=
        acc.2.rendered.set elIdx (if display.isEmpty then str "…" else display) })

/-- A whole stream of callback invocations, in order. -/
def onUpdateRun (curSeq reqSeq : Nat) (formatted : Str) (elIdx : Nat) :
    List GenChunk → Str × ChatVisState → Str × ChatVisState
  | [], acc => acc
  | c :: cs, acc =>
    onUpdateRun curSeq reqSeq formatted elIdx cs
      (onUpdate curSeq reqSeq c formatted elIdx acc)

/-- The value generateText resolves with, as read by _generateResponse:
either no element, or a first element with an optional generated_text field
and a stringified fallback form. -/
inductive GenResult where
  | noRes
  | elem (genText : Option Str) (stringified : Str)

/-- raw = result?.[0]?.generated_text ?? latestText. -/
def rawOf (res : GenResult) (latestText : Str) : Str :=
  match res with
  | .noRes => latestText
  | .elem none _ => latestText
  | .elem (some t) _ => t

/-- full = raw or the stringified first element when raw is empty. -/
def fullOf (res : GenResult) (raw : Str) : Str :=
  if raw.isEmpty then
    match res with
    | .elem _ s => s
    | .noRes => []
  else raw

/-- The final-result handling of _generateResponse after generateText
resolves: suppressed entirely when the engine sequence number differs from
the captured one; otherwise derive the reply from the result, finalize it
(promo/quip embellishment), append the assistant turn to the engine history,
rewrite the response element and clear the status. -/
def finishGeneration (curSeq reqSeq : Nat) (res : GenResult)
    (latestText formatted userInput : Str) (promos quips : List Str)
    (r : EmbellishRand) (elIdx : Nat) (st : ChatVisState) : ChatVisState :=
  if curSeq ≠ reqSeq then st
  else
    let raw := rawOf res latestText
    let full := fullOf res raw
    let reply0 := if !formatted.isEmpty && jsStartsWith full formatted then
      full.drop formatted.length else full
    let reply1 := jsTrim (stripLeadingDots reply0)
    let reply := finalizeResponse promos quips reply1 userInput r
    { st with
        history := st.history ++ [(str "assistant", reply)],
        rendered := st.rendered.set elIdx
          (if reply.isEmpty then str "(no response)" else reply),
        status := [] }

/-! ## Concrete sample data used to instantiate the claims -/

/-- A highlights library whose flattened highlight list has exactly 5 entries. -/
def sampleFiveQuoteBooks : List HBook :=
  [⟨str "First Book", str "Author One",
    some [⟨str "quote zero"⟩, ⟨str "quote one"⟩, ⟨str "quote two"⟩]⟩,
   ⟨str "Second Book", str "Author Two",
    some [⟨str "quote three"⟩, ⟨str "quote four"⟩]⟩]

/-- A manuscript paragraph that is longer than 300 characters and splits into
11 sentence fragments (10 period-terminated sentences plus the trailing empty
fragment JS split produces). -/
def sampleLongParagraph : Str :=
  str "The robot walked through the ancient valley. It carried a bundle of research notes. The morning light fell across the dusty canyon walls. A distant river murmured beneath the cliffs. Every sensor recorded the slow pulse of the land. The archive hummed quietly inside its chest. Old songs played from a cracked speaker. Data streamed upward to a patient satellite. The mission clock ticked onward without pause. Nothing about the journey felt routine."

/-- A manuscript paragraph comfortably over the 100-character threshold that
passes every header/boilerplate filter. -/
def sampleEligibleParagraph : Str :=
  str "This paragraph from the manuscript is comfortably longer than one hundred characters so it qualifies for selection by the excerpt picker."

/-- A two-paragraph manuscript: one eligible paragraph and one too-short one. -/
def sampleManuscript : Str :=
  sampleEligibleParagraph ++ str "\n\n" ++ str "Too short."

/-! # Claim theorems -/

/-- Claim C1 (code evaluation at the failing input): for each content kind,
with no cached data and a configured path, a not-ok fetch response makes the
loader resolve with null (.ok none) under BOTH graceful-degradation settings:
the catch-all wrapping the whole loader body swallows the loader's own thrown
fetch error, so with graceful degradation disabled no fetch error ever
surfaces to the caller, contrary to the spec's intent. -/
theorem loaders_swallow_fetch_error {α : Type} (path statusText : Str)
    (graceful : Bool) (body : Except Str α) (bodyH : Except Str HighlightsData)
    (bodyM : Except Str Str) :
    loadResumeData none (some path) graceful (.resp false statusText body) =
      .ok none ∧
    loadHighlightsData none (some path) graceful
      (.resp false statusText bodyH) = .ok none ∧
    loadManuscriptData none (some path) graceful
      (.resp false statusText bodyM) = .ok none := by
  refine ⟨?_, ?_, ?_⟩ <;> cases graceful <;> rfl

/-- Claim C2: every streaming-callback invocation and the final-result
handling of a superseded generation request (one whose captured sequence
number is below the engine's current counter) leave the visible state —
conversation history, rendered messages and status line — and even the local
latestText accumulator unchanged. -/
theorem superseded_generation_invisible (curSeq reqSeq : Nat)
    (h : reqSeq < curSeq) :
    (∀ (chunks : List GenChunk) (formatted : Str) (elIdx : Nat)
       (acc : Str × ChatVisState),
       onUpdateRun curSeq reqSeq formatted elIdx chunks acc = acc) ∧
    (∀ (res : GenResult) (latestText formatted userInput : Str)
       (promos quips : List Str) (r : EmbellishRand) (elIdx : Nat)
       (st : ChatVisState),
       finishGeneration curSeq reqSeq res latestText formatted userInput
         promos quips r elIdx st = st) := by
  have hne : curSeq ≠ reqSeq := Nat.ne_of_gt h
  constructor
  · intro chunks
    induction chunks with
    | nil => intro _ _ _; rfl
    | cons c cs ih =>
      intro formatted elIdx acc
      simp only [onUpdateRun, onUpdate, if_pos hne]
      exact ih formatted elIdx acc
  · intro res latestText formatted userInput promos quips r elIdx st
    simp only [finishGeneration, if_pos hne]

/-- Closed instance of claim C2 at a concrete superseded request. -/
theorem superseded_generation_invisible_witness :
    onUpdateRun 2 1 (str "p") 0 [GenChunk.strChunk (str "x"), GenChunk.other]
      (str "t", ⟨[], [str "a"], str "Thinking"⟩) =
      (str "t", ⟨[], [str "a"], str "Thinking"⟩) ∧
    finishGeneration 2 1 .noRes (str "t") (str "p") (str "u") [] []
      ⟨true, true, [], []⟩ 0 ⟨[], [str "a"], str "s"⟩ =
      ⟨[], [str "a"], str "s"⟩ := by
  have h := superseded_generation_invisible 2 1 (by decide)
  exact ⟨h.1 _ _ _ _, h.2 _ _ _ _ _ _ _ _ _⟩

/-- Claim C3: with a seed supplied, highlight selection and manuscript-chunk
selection never consult the Math.random draw stream — two invocations with
identical data and the same seed return identical results. -/
theorem seeded_selection_deterministic (s : Nat) (rOpt : Option Bool)
    (data : Option HighlightsData) (txt : Option Str) (rng1 rng2 : List Nat) :
    selectRandomHighlights data ⟨some s, rOpt⟩ rng1 =
      selectRandomHighlights data ⟨some s, rOpt⟩ rng2 ∧
    selectRandomManuscriptChunk txt ⟨some s, rOpt⟩ rng1 =
      selectRandomManuscriptChunk txt ⟨some s, rOpt⟩ rng2 := by
  have hdet : SelOptions.deterministic ⟨some s, rOpt⟩ = true := by
    simp [SelOptions.deterministic]
  constructor
  · cases data with
    | none => rfl
    | some d =>
      cases hb : d.books with
      | none => simp [selectRandomHighlights, hb]
      | some books => simp [selectRandomHighlights, hb, hdet]
  · cases txt with
    | none => rfl
    | some t =>
      simp [selectRandomManuscriptChunk, chosenParagraph, chunkIndex, hdet]

/-- Claim C7: a reply below the 30-character embellishment minimum, or one
containing an apology/uncertainty marker, is returned by finalizeResponse
unchanged, whatever the user input, the configured promo/quip lists and the
random draws. -/
theorem short_or_uncertain_reply_unchanged (promos quips : List Str)
    (response userText : Str) (r : EmbellishRand)
    (h : response.length < 30 ∨ jsIncludes response (str "apologize") = true ∨
      jsIncludes response (str "not sure") = true) :
    finalizeResponse promos quips response userText r = response := by
  unfold finalizeResponse
  rcases h with h | h | h
  · simp [h]
  · simp [h]
  · simp [h]

/-- Closed instance of claim C7: a 25-character reply passes through
finalizeResponse unchanged even with a trigger-laden user input and promo and
quip rolls that both succeed. -/
theorem short_or_uncertain_reply_unchanged_witness :
    (str "I am twenty-five chars aa").length < 30 ∧
    finalizeResponse [str "PROMO"] [str "QUIP"]
      (str "I am twenty-five chars aa") (str "tell me about evolution ai book")
      ⟨true, true, [0], [0]⟩ = str "I am twenty-five chars aa" :=
  ⟨by decide, short_or_uncertain_reply_unchanged _ _ _ _ _ (Or.inl (by decide))⟩

/-- Helper: slice(-n) is an order-preserving selection from the original. -/
theorem jsSliceNeg_sublist (l : List α) (n : Nat) : (jsSliceNeg l n).Sublist l := by
  unfold jsSliceNeg
  split
  · exact List.Sublist.refl l
  · exact List.drop_sublist _ _

/-- Helper: slice(-n) returns at most n elements when n is positive. -/
theorem jsSliceNeg_length_le (l : List α) {n : Nat} (hn : n ≠ 0) :
    (jsSliceNeg l n).length ≤ n := by
  unfold jsSliceNeg
  rw [if_neg hn]
  simp only [List.length_drop]
  omega

/-- Claim C5: for every history, user input and positive per-turn recency
window (the dynamic HISTORY_LIMIT is always drawn from 5..10, defaulting to
8), pruning returns at most window + 2 turns, and the returned turns are a
sublist of the history, i.e. appear in their original relative order. -/
theorem prune_bounded_and_ordered (history : List Turn) (limit : Nat)
    (input : Str) (hl : 1 ≤ limit) :
    (pruneHistory history limit input).length ≤ limit + 2 ∧
    (pruneHistory history limit input).Sublist history := by
  have hne : limit ≠ 0 := by omega
  unfold pruneHistory
  split
  · exact ⟨le_trans (jsSliceNeg_length_le _ hne) (by omega),
      jsSliceNeg_sublist _ _⟩
  · constructor
    · rw [List.length_append]
      have h1 := jsSliceNeg_length_le
        ((jsSliceZeroNeg history limit).filter
          (turnMatches (extractKeywords input))) (two_ne_zero)
      have h2 := jsSliceNeg_length_le history hne
      omega
    · have hTake : jsSliceZeroNeg history limit =
          List.take (history.length - limit) history := by
        unfold jsSliceZeroNeg
        rw [if_neg hne]
      have hOlder : (jsSliceNeg ((jsSliceZeroNeg history limit).filter
          (turnMatches (extractKeywords input))) 2).Sublist
          (List.take (history.length - limit) history) := by
        refine (jsSliceNeg_sublist _ _).trans ?_
        rw [hTake] at *
        exact List.filter_sublist _
      have hRecent : (jsSliceNeg history limit).Sublist
          (List.drop (history.length - limit) history) := by
        unfold jsSliceNeg
        rw [if_neg hne]
      have := hOlder.append hRecent
      rwa [List.take_append_drop] at this

/-- Closed instance of claim C5 with window 1 and a 3-turn history containing
a keyword-relevant older turn. -/
theorem prune_bounded_and_ordered_witness :
    (pruneHistory
      [(str "me", str "alpha and beta facts"), (str "ai", str "irrelevant"),
       (str "me", str "gamma")] 1 (str "tell me about beta")).length ≤ 1 + 2 ∧
    (pruneHistory
      [(str "me", str "alpha and beta facts"), (str "ai", str "irrelevant"),
       (str "me", str "gamma")] 1 (str "tell me about beta")).Sublist
      [(str "me", str "alpha and beta facts"), (str "ai", str "irrelevant"),
       (str "me", str "gamma")] :=
  prune_bounded_and_ordered _ 1 _ (by decide)

/-- Claim C4: for highlights data whose flattened highlight list has exactly
5 entries and seed 0, the seeded selection returns exactly the 3 quotes at
the distinct indices 0 mod 5 = 0, 17 mod 5 = 2 and 34 mod 5 = 4 of the
flattened list. -/
theorem seed0_fixed_stride_selection (books : List HBook) (rng : List Nat)
    (h5 : (flattenHighlights books).length = 5) :
    selectRandomHighlights (some ⟨some books⟩) ⟨some 0, none⟩ rng =
      some [((flattenHighlights books).get? (0 % 5)).getD dfltHighlight,
            ((flattenHighlights books).get? (17 % 5)).getD dfltHighlight,
            ((flattenHighlights books).get? (34 % 5)).getD dfltHighlight] ∧
    [((flattenHighlights books).get? (0 % 5)).getD dfltHighlight,
     ((flattenHighlights books).get? (17 % 5)).getD dfltHighlight,
     ((flattenHighlights books).get? (34 % 5)).getD dfltHighlight].length = 3 := by
  refine ⟨?_, rfl⟩
  simp only [selectRandomHighlights, SelOptions.deterministic, h5]
  norm_num
  have hidx : List.foldl
      (fun sel i => if i * 17 % 5 ∈ sel then sel else sel ++ [i * 17 % 5])
      ([] : List Nat) (List.range 3) = [0, 2, 4] := by decide
  rw [hidx]
  simp

/-- Closed instance of claim C4 on a concrete 5-quote library. -/
theorem seed0_fixed_stride_selection_witness :
    (flattenHighlights sampleFiveQuoteBooks).length = 5 ∧
    selectRandomHighlights (some ⟨some sampleFiveQuoteBooks⟩) ⟨some 0, none⟩ [] =
      some [((flattenHighlights sampleFiveQuoteBooks).get? (0 % 5)).getD dfltHighlight,
            ((flattenHighlights sampleFiveQuoteBooks).get? (17 % 5)).getD dfltHighlight,
            ((flattenHighlights sampleFiveQuoteBooks).get? (34 % 5)).getD dfltHighlight] :=
  ⟨by decide, (seed0_fixed_stride_selection sampleFiveQuoteBooks [] (by decide)).1⟩

/-- Claim C9: with the promo list empty — which is exactly what
generateBookPromos produces when no book is configured or book promos are
disabled — selectRandomPromo returns undefined (none), and likewise
selectRandomQuip with an empty quip list; a reply that passes the
embellishment gate and takes the promo branch therefore gets the literal text
"undefined" appended. -/
theorem empty_promo_list_appends_undefined :
    (∀ (book : Option BookCfg) (use : Bool) (sample : List Str),
       book = none ∨ use = false → generateBookPromos book use sample = []) ∧
    (∀ (opts : SelOptions) (rng : List Nat),
       selectRandomPromo [] opts rng = none ∧
       selectRandomQuip [] opts rng = none) ∧
    (∀ (quips : List Str) (response userText : Str) (r : EmbellishRand),
       30 ≤ response.length →
       jsIncludes response (str "apologize") = false →
       jsIncludes response (str "not sure") = false →
       (hasBookTrigger userText response || r.promoRoll) = true →
       finalizeResponse [] quips response userText r =
         response ++ str "\n\n" ++ str "undefined") := by
  refine ⟨?_, ?_, ?_⟩
  · intro book use sample h
    rcases h with h | h
    · subst h; rfl
    · subst h
      cases book with
      | none => rfl
      | some b => rfl
  · intro opts rng
    constructor
    · unfold selectRandomPromo
      split <;> rfl
    · unfold selectRandomQuip
      split <;> rfl
  · intro quips response userText r h30 hap hns htrig
    have hemp : response.isEmpty = false := by
      cases response with
      | nil => simp at h30
      | cons c cs => rfl
    have hlt : ¬(response.length < 30) := by omega
    unfold finalizeResponse
    simp only [hemp, hap, hns, htrig, decide_eq_false hlt, Bool.or_false,
      Bool.false_or, if_false, if_true, Bool.false_eq_true, ite_false, ite_true]
    rfl

/-- Closed instance of claim C9: a 47-character reply containing the trigger
word robot, with the promo list empty, comes back with a literal undefined
appended. -/
theorem empty_promo_list_appends_undefined_witness :
    30 ≤ (str "This is a sufficiently long reply about robots.").length ∧
    finalizeResponse [] [str "a quip"]
      (str "This is a sufficiently long reply about robots.") (str "hello")
      ⟨false, false, [], []⟩ =
      str "This is a sufficiently long reply about robots." ++ str "\n\n" ++
        str "undefined" :=
  ⟨by decide, empty_promo_list_appends_undefined.2.2 _ _ _ _ (by decide)
    (by decide) (by decide) (by decide)⟩

/-- Claim C10: a user input whose lowercased, trimmed text is one of the
fixed greetings makes _handleSubmit append the user turn and a canned
assistant response to both the conversation history and the rendered
messages and return; none of the emitted effects dispatches generation
(prompt assembly, inference and embellishment all live behind that
dispatch). -/
theorem greeting_bypasses_generation (name : Str) (st : SubmitState)
    (rawInput : Str) (rng : Nat)
    (hg : greetings.contains (jsTrim (jsToLower (jsTrim rawInput))) = true) :
    handleSubmit name st rawInput rng =
      ({ st with
          history := st.history ++
            [(str "user", jsTrim rawInput),
             (str "assistant",
              (cannedResponses name).getD (rng % (cannedResponses name).length) [])],
          rendered := st.rendered ++
            [(str "user", jsTrim rawInput),
             (str "assistant",
              (cannedResponses name).getD (rng % (cannedResponses name).length) [])] },
       [.addedTurn (str "user") (jsTrim rawInput),
        .renderedMsg (str "user") (jsTrim rawInput),
        .addedTurn (str "assistant")
          ((cannedResponses name).getD (rng % (cannedResponses name).length) []),
        .renderedMsg (str "assistant")
          ((cannedResponses name).getD (rng % (cannedResponses name).length) [])]) ∧
    ∀ a ∈ (handleSubmit name st rawInput rng).2, isGenerateCall a = false := by
  have hne : (jsTrim rawInput).isEmpty = false := by
    cases he : (jsTrim rawInput).isEmpty
    · rfl
    · exfalso
      have hnil : jsTrim rawInput = [] := by
        cases hc : jsTrim rawInput
        · rfl
        · rw [hc] at he; exact absurd he (by simp)
      rw [hnil] at hg
      exact absurd hg (by decide)
  have heq : handleSubmit name st rawInput rng =
      ({ st with
          history := st.history ++
            [(str "user", jsTrim rawInput),
             (str "assistant",
              (cannedResponses name).getD (rng % (cannedResponses name).length) [])],
          rendered := st.rendered ++
            [(str "user", jsTrim rawInput),
             (str "assistant",
              (cannedResponses name).getD (rng % (cannedResponses name).length) [])] },
       [.addedTurn (str "user") (jsTrim rawInput),
        .renderedMsg (str "user") (jsTrim rawInput),
        .addedTurn (str "assistant")
          ((cannedResponses name).getD (rng % (cannedResponses name).length) []),
        .renderedMsg (str "assistant")
          ((cannedResponses name).getD (rng % (cannedResponses name).length) [])]) := by
    unfold handleSubmit
    simp only [hne, hg, Bool.false_eq_true, if_false, if_true, ite_false, ite_true]
  refine ⟨heq, ?_⟩
  rw [heq]
  intro a ha
  simp only [List.mem_cons, List.not_mem_nil, or_false] at ha
  rcases ha with rfl | rfl | rfl | rfl <;> rfl

/-- Closed instance of claim C10 on the input " HeLLo " (which trims and
lowercases to the greeting hello). -/
theorem greeting_bypasses_generation_witness :
    handleSubmit (str "Your Name") ⟨[], [], true⟩ (str " HeLLo ") 7 =
      ({ history := [(str "user", jsTrim (str " HeLLo ")),
          (str "assistant",
           (cannedResponses (str "Your Name")).getD
             (7 % (cannedResponses (str "Your Name")).length) [])],
         rendered := [(str "user", jsTrim (str " HeLLo ")),
          (str "assistant",
           (cannedResponses (str "Your Name")).getD
             (7 % (cannedResponses (str "Your Name")).length) [])],
         modelLoaded := true },
       [.addedTurn (str "user") (jsTrim (str " HeLLo ")),
        .renderedMsg (str "user") (jsTrim (str " HeLLo ")),
        .addedTurn (str "assistant")
          ((cannedResponses (str "Your Name")).getD
            (7 % (cannedResponses (str "Your Name")).length) []),
        .renderedMsg (str "assistant")
          ((cannedResponses (str "Your Name")).getD
            (7 % (cannedResponses (str "Your Name")).length) [])]) ∧
    ∀ a ∈ (handleSubmit (str "Your Name") ⟨[], [], true⟩ (str " HeLLo ") 7).2,
      isGenerateCall a = false := by
  have h := greeting_bypasses_generation (str "Your Name") ⟨[], [], true⟩
    (str " HeLLo ") 7 (by decide)
  exact ⟨by rw [h.1]; rfl, h.2⟩

/-- Helper: the selected index is always inside the paragraph pool. -/
theorem chunkIndex_lt (opts : SelOptions) (rng : List Nat) {len : Nat}
    (h : 0 < len) : chunkIndex opts rng len < len := by
  unfold chunkIndex
  split <;> exact Nat.mod_lt _ h

/-- Helper: every paragraph in the filtered pool exceeds 100 characters. -/
theorem mem_manuscriptParagraphs_length {txt q : Str}
    (h : q ∈ manuscriptParagraphs txt) : 100 < q.length := by
  have hpf := List.of_mem_filter h
  unfold passesFilter at hpf
  rw [Bool.and_eq_true] at hpf
  exact of_decide_eq_true hpf.1

/-- Claim C6: the excerpt picker never selects a paragraph of 100 characters
or fewer (the minimum qualifying length is 101), and every blank-line
paragraph at or above that length that passes the header/boilerplate filters
is eligible: some seed selects exactly it. -/
theorem manuscript_length_threshold (txt : Str) :
    (∀ (opts : SelOptions) (rng : List Nat) (q : Str),
       chosenParagraph (some txt) opts rng = some q → 100 < q.length) ∧
    (∀ p : Str, p ∈ rawParagraphs txt → headerFiltersPass p = true →
       100 < p.length →
       ∃ seed : Nat, chosenParagraph (some txt) ⟨some seed, none⟩ [] = some p) := by
  constructor
  · intro opts rng q hq
    cases he : txt.isEmpty with
    | true => simp [chosenParagraph, he] at hq
    | false =>
      by_cases hz : (manuscriptParagraphs txt).length = 0
      · simp [chosenParagraph, he, hz] at hq
      · have hlt := chunkIndex_lt opts rng (Nat.pos_of_ne_zero hz)
        have hget := List.get?_eq_get hlt
        simp only [chosenParagraph, he, hz, Bool.false_eq_true, if_false,
          ite_false, hget, Option.getD_some, Option.some.injEq] at hq
        subst hq
        exact mem_manuscriptParagraphs_length (List.get_mem _ _ _)
  · intro p hmem hhdr hlen
    have hpf : passesFilter p = true := by
      unfold passesFilter
      rw [Bool.and_eq_true]
      exact ⟨decide_eq_true hlen, hhdr⟩
    have hmem2 : p ∈ manuscriptParagraphs txt := List.mem_filter.mpr ⟨hmem, hpf⟩
    have htxt : txt.isEmpty = false := by
      cases txt with
      | nil =>
        exfalso
        have hp : p = [] := by
          simpa [show rawParagraphs [] = [[]] from rfl] using hmem
        rw [hp] at hlen
        exact absurd hlen (by decide)
      | cons c cs => rfl
    obtain ⟨⟨i, hi⟩, hget⟩ := List.mem_iff_get.mp hmem2
    refine ⟨i, ?_⟩
    have hz : ¬((manuscriptParagraphs txt).length = 0) := by omega
    have hidx : chunkIndex ⟨some i, none⟩ [] (manuscriptParagraphs txt).length
        = i := by
      unfold chunkIndex SelOptions.deterministic
      simp [Nat.mod_eq_of_lt hi]
    simp only [chosenParagraph, htxt, hz, Bool.false_eq_true, if_false,
      ite_false, hidx, List.get?_eq_get hi, hget, Option.getD_some]

set_option maxRecDepth 100000 in
/-- Closed instance of claim C6: on the two-paragraph sample manuscript the
chosen paragraph always exceeds 100 characters, and the eligible
137-character paragraph is selectable by some seed. -/
theorem manuscript_length_threshold_witness :
    100 < ((chosenParagraph (some sampleManuscript) ⟨some 0, none⟩ []).getD
      []).length ∧
    ∃ seed : Nat, chosenParagraph (some sampleManuscript) ⟨some seed, none⟩ []
      = some sampleEligibleParagraph := by
  constructor
  · exact (manuscript_length_threshold sampleManuscript).1 ⟨some 0, none⟩ [] _
      (by decide)
  · exact (manuscript_length_threshold sampleManuscript).2
      sampleEligibleParagraph (by decide) (by decide) (by decide)

/-- Claim C8 (amended): a selected paragraph longer than 300 characters is
truncated to its first min(3, max(1, floor(0.4 * n))) sentence fragments
(n = its fragment count) re-joined with periods plus a trailing period —
roughly the first 40% of its sentences but never more than 3 and at least 1,
so the 40% rule alone does not describe paragraphs with 8 or more
fragments. -/
theorem oversized_truncation_rule (txt : Str) (opts : SelOptions)
    (rng : List Nat) (p : Str)
    (hp : chosenParagraph (some txt) opts rng = some p)
    (hlong : 300 < p.length) :
    selectRandomManuscriptChunk (some txt) opts rng =
      some (jsTrim (List.intercalate (str ".")
        ((sentenceFragments p).take
          (min 3 (max 1 (2 * (sentenceFragments p).length / 5)))) ++ str ".")) := by
  unfold selectRandomManuscriptChunk
  rw [hp]
  simp only [Option.map_some']
  unfold truncateChunk numSentencesKept
  rw [if_pos (decide_eq_true hlong)]

set_option maxRecDepth 1000000 in
/-- Closed instance of claim C8's amended rule: the 450-character,
11-fragment sample paragraph is truncated to its first 3 fragments. -/
theorem oversized_truncation_rule_witness :
    chosenParagraph (some sampleLongParagraph) ⟨some 0, none⟩ [] =
      some sampleLongParagraph ∧
    300 < sampleLongParagraph.length ∧
    selectRandomManuscriptChunk (some sampleLongParagraph) ⟨some 0, none⟩ [] =
      some (jsTrim (List.intercalate (str ".")
        ((sentenceFragments sampleLongParagraph).take
          (min 3 (max 1 (2 * (sentenceFragments sampleLongParagraph).length / 5))))
        ++ str ".")) :=
  ⟨by decide, by decide,
   oversized_truncation_rule sampleLongParagraph ⟨some 0, none⟩ []
     sampleLongParagraph (by decide) (by decide)⟩

set_option maxRecDepth 1000000 in
/-- Counterexample to claim C8 as stated: the sample paragraph exceeds the
300-character oversize threshold and has 11 sentence fragments, so the first
40% of its sentences would be 4 fragments, yet the excerpt returned by the
code consists of only its first 3 fragments (the truncation is capped at 3),
and the two excerpts differ. -/
theorem oversized_truncation_not_forty_percent :
    300 < sampleLongParagraph.length ∧
    (sentenceFragments sampleLongParagraph).length = 11 ∧
    2 * (sentenceFragments sampleLongParagraph).length / 5 = 4 ∧
    selectRandomManuscriptChunk (some sampleLongParagraph) ⟨some 0, none⟩ [] =
      some (jsTrim (List.intercalate (str ".")
        ((sentenceFragments sampleLongParagraph).take 3) ++ str ".")) ∧
    jsTrim (List.intercalate (str ".")
        ((sentenceFragments sampleLongParagraph).take 3) ++ str ".") ≠
      jsTrim (List.intercalate (str ".")
        ((sentenceFragments sampleLongParagraph).take 4) ++ str ".") := by
  refine ⟨by decide, by decide, by decide, by decide, by decide⟩
